import Mathlib

/-!
Shallow embedding of the state-synchronization and telemetry core of
`robot_kiosk.py` (class `RobotKiosk`), together with proofs of the
specification's testable properties.

The embedding models:
- the motor dictionary `self.motors` (fixed keys "ARM", "WRIST", "TENTACLE");
- the bound views: three `CircularProgress` gauges and three vertical
  `QSlider`s (both clamp displayed values to [0,100]: `CircularProgress.setValue`
  clamps explicitly, and the sliders are created with `setRange(0, 100)`);
- `RobotKiosk._set_motor`, `_apply_preset`, `_open_dial` with `DialDialog`;
- `RobotKiosk._simulate_battery` with the random draws as explicit parameters;
- navigation via `_on_nav` over the `QStackedWidget`.
-/

/-- Clamp an integer to [0, 100], i.e. `max(0, min(100, v))`. -/
def clamp01 (v : Int) : Int := max 0 (min 100 v)

/-- The motor dictionary `self.motors`.  Its key set is fixed at construction:
`{"ARM": 50, "WRIST": 50, "TENTACLE": 50}`; no key is ever added or removed,
so it is embedded as a record with one field per key. -/
structure Motors where
  arm : Int
  wrist : Int
  tentacle : Int
deriving DecidableEq, Repr

/-- `key in self.motors`: membership test of the fixed key set. -/
def Motors.member (key : String) : Bool :=
  key = "ARM" || key = "WRIST" || key = "TENTACLE"

/-- Dictionary read `self.motors[key]` as a partial lookup
(`self.motors.get(key)` in `_open_dial`). -/
def Motors.get? (m : Motors) (key : String) : Option Int :=
  if key = "ARM" then some m.arm
  else if key = "WRIST" then some m.wrist
  else if key = "TENTACLE" then some m.tentacle
  else none

/-- Dictionary write `self.motors[key] = val` for a key of the fixed key set
(callers guard with `key in self.motors`); an unknown key leaves
the mapping unchanged. -/
def Motors.set (m : Motors) (key : String) (v : Int) : Motors :=
  if key = "ARM" then { m with arm := v }
  else if key = "WRIST" then { m with wrist := v }
  else if key = "TENTACLE" then { m with tentacle := v }
  else m

/-- `CircularProgress.setValue(v)`: stores `max(0, min(100, int(v)))`. -/
def circularSetValue (v : Int) : Int := clamp01 v

/-- `QSlider.setValue(v)` for the sliders built by `_create_vertical_slider`,
which calls `setRange(0, 100)`: Qt bounds the stored value to the range. -/
def sliderSetValue (v : Int) : Int := clamp01 v

/-- The mutable state of `RobotKiosk` relevant to the motor-synchronization
core: the motor store, the three circular gauges, the three sliders, and the
`QStackedWidget` current page index. -/
structure KioskState where
  motors : Motors
  circ_arm : Int
  circ_wrist : Int
  circ_tent : Int
  s_arm : Int
  s_wrist : Int
  s_tent : Int
  stackIndex : Nat
deriving DecidableEq, Repr

/-- The state right after `RobotKiosk.__init__`: motors at 50, each gauge set
via `setValue(self.motors[...])`, each slider created with the motor value,
and the stacked widget showing its first added page (index 0 = Home). -/
def initState : KioskState :=
  { motors := { arm := 50, wrist := 50, tentacle := 50 }
    circ_arm := circularSetValue 50
    circ_wrist := circularSetValue 50
    circ_tent := circularSetValue 50
    s_arm := sliderSetValue 50
    s_wrist := sliderSetValue 50
    s_tent := sliderSetValue 50
    stackIndex := 0 }

/-- `RobotKiosk._set_motor(key, val)`: `val = int(val)`; if `key in self.motors`
then `self.motors[key] = val` (no clamping of the stored value); then every
gauge and every slider is re-rendered from the stored values
(`setValue(self.motors[...])`, sliders with signals blocked). -/
def set_motor (st : KioskState) (key : String) (val : Int) : KioskState :=
  let motors := if Motors.member key then st.motors.set key val else st.motors
  { st with
    motors := motors
    circ_arm := circularSetValue motors.arm
    circ_wrist := circularSetValue motors.wrist
    circ_tent := circularSetValue motors.tentacle
    s_arm := sliderSetValue motors.arm
    s_wrist := sliderSetValue motors.wrist
    s_tent := sliderSetValue motors.tentacle }

/-- `_set_motor` with its error channel made explicit: the Python body raises
no exception on any input (the dictionary write is guarded by
`key in self.motors`), so every call returns normally. -/
def set_motorE (st : KioskState) (key : String) (val : Int) :
    Except String KioskState :=
  Except.ok (set_motor st key val)

/-- The registered views bound to a channel: its circular gauge and its
vertical slider (an unknown channel has no bound views). -/
def viewsFor (st : KioskState) (key : String) : List Int :=
  if key = "ARM" then [st.circ_arm, st.s_arm]
  else if key = "WRIST" then [st.circ_wrist, st.s_wrist]
  else if key = "TENTACLE" then [st.circ_tent, st.s_tent]
  else []

/-- `RobotKiosk._apply_preset(name)`: chooses the value table ("Stand",
"Wave", anything else falls to the Relax table) and calls `_set_motor`
for each pair in dictionary insertion order. -/
def apply_preset (st : KioskState) (name : String) : KioskState :=
  let vals : List (String × Int) :=
    if name = "Stand" then [("ARM", 30), ("WRIST", 40), ("TENTACLE", 10)]
    else if name = "Wave" then [("ARM", 80), ("WRIST", 60), ("TENTACLE", 10)]
    else [("ARM", 40), ("WRIST", 30), ("TENTACLE", 20)]
  vals.foldl (fun s kv => set_motor s kv.1 kv.2) st

/-- The transient state of one `DialDialog` session: the `QDial` value and the
value shown by `self.value_label` (updated by `_on_change` on every
`valueChanged`). -/
structure DialogState where
  dialValue : Int
  labelValue : Int
deriving DecidableEq, Repr

/-- Opening the dial dialog in `_open_dial`: `initial = self.motors.get(name, 50)`;
the `QDial` has `setRange(0, 100)` so `setValue(initial)` bounds the stored dial
value to [0,100]; the value label is built showing `initial`. -/
def open_dialog (st : KioskState) (name : String) : DialogState :=
  let initial := (st.motors.get? name).getD 50
  { dialValue := clamp01 initial, labelValue := initial }

/-- One operator adjustment of the dial during the session: the `QDial` bounds
the new value to its range [0,100] and `valueChanged` drives `_on_change`,
which updates the value label to the same number. -/
def dialog_adjust (d : DialogState) (v : Int) : DialogState :=
  let nv := clamp01 v
  { dialValue := nv, labelValue := nv }

/-- Closing the dialog in `_open_dial`: if `dlg.exec_() == QDialog.Accepted`
then `self._set_motor(motor_name, dlg.get_value())` is called (once); otherwise
nothing happens.  The second component counts the `_set_motor` calls made on
that path. -/
def close_dialog (st : KioskState) (name : String) (d : DialogState)
    (accepted : Bool) : KioskState × Nat :=
  if accepted then (set_motor st name d.dialValue, 1) else (st, 0)

/-- The four pages of the kiosk, in the order they are added to the
`QStackedWidget`: Home, Motor, Sensors, Settings. -/
inductive Page where
  | home
  | motor
  | sensors
  | settings
deriving DecidableEq, Repr

/-- The `page_index` property attached to each navigation button
(`[("Home", 0), ("Motor", 1), ("Sensors", 2), ("Settings", 3)]`). -/
def pageIndex : Page → Nat
  | Page.home => 0
  | Page.motor => 1
  | Page.sensors => 2
  | Page.settings => 3

/-- The `QStackedWidget` current index right after `__init__`: the stack shows
the first page added, the home page at index 0. -/
def initStackIndex : Nat := 0

/-- `RobotKiosk._on_nav`: reads the sender button's `page_index` property and
calls `self.stack.setCurrentIndex(idx)`, unconditionally replacing the current
index. -/
def on_nav (idx : Nat) (p : Page) : Nat := pageIndex p

/-- The stacked-widget index after a sequence of navigation button clicks,
starting from the initial index. -/
def navRun (ps : List Page) : Nat := ps.foldl on_nav initStackIndex

/-- A page is active when the `QStackedWidget` current index is its index
(the stack makes exactly the widget at the current index visible). -/
def isActive (idx : Nat) (p : Page) : Prop := idx = pageIndex p

/-- `random.choice([0, 0, 1])` in `_simulate_battery`: the list drawn from. -/
def decChoices : List Int := [0, 0, 1]

/-- `RobotKiosk._simulate_battery`, with the three random draws as parameters:
`i` indexes `random.choice([0, 0, 1])`, `recharge` is the outcome of
`random.random() < 0.28`, and `jump` is `random.randint(8, 25)`.  The body:
`batt_val -= choice`; if `batt_val < 20 and recharge` then
`batt_val = min(100, batt_val + jump)`; finally
`batt_val = max(0, min(100, batt_val))`. -/
def simulate_battery (prev : Int) (i : Fin 3) (recharge : Bool) (jump : Int) :
    Int :=
  let v1 := prev - decChoices.get ⟨i.val, i.isLt⟩
  let v2 := if v1 < 20 ∧ recharge = true then min 100 (v1 + jump) else v1
  max 0 (min 100 v2)

/-- The battery reading published by one `_simulate_battery` tick: the percent
and the voltage shown in the labels, with
`voltage = 11.0 + (batt_val / 100.0) * 1.6` computed from the same
`batt_val` (exact arithmetic over the rationals). -/
structure BatterySample where
  percent : Int
  voltage : Rat
deriving DecidableEq, Repr

/-- One `_simulate_battery` tick as a sample producer: the new percent plus
the voltage derived from it by the fixed linear mapping. -/
def simulate_battery_sample (prev : Int) (i : Fin 3) (recharge : Bool)
    (jump : Int) : BatterySample :=
  let p := simulate_battery prev i recharge jump
  { percent := p, voltage := 11 + ((p : Rat) / 100) * (16 / 10) }

/-!  Helper lemmas. -/

/-- Membership in the fixed key set names one of the three channels. -/
lemma Motors.member_cases (k : String) (h : Motors.member k = true) :
    k = "ARM" ∨ k = "WRIST" ∨ k = "TENTACLE" := by
  have h' : (k = "ARM" ∨ k = "WRIST") ∨ k = "TENTACLE" := by
    simpa [Motors.member] using h
  tauto

/-- A dictionary write to one key leaves every other key's value unchanged. -/
lemma Motors.get?_set_ne (m : Motors) (k k' : String) (v : Int) (h : k' ≠ k) :
    (m.set k v).get? k' = m.get? k' := by
  unfold Motors.set Motors.get?
  split_ifs <;> simp_all

/-- `page_index` distinguishes the four pages. -/
lemma pageIndex_injective : Function.Injective pageIndex := by
  intro p q h
  cases p <;> cases q <;> first | rfl | simpa [pageIndex] using h

/-- Starting from any page's index, a run of navigation clicks lands on some
page's index. -/
lemma navRun_foldl_reaches (ps : List Page) :
    ∀ s : Nat, (∃ q : Page, s = pageIndex q) →
      ∃ q : Page, ps.foldl on_nav s = pageIndex q := by
  induction ps with
  | nil => intro s hs; simpa using hs
  | cons p ps ih =>
      intro s _
      exact ih (on_nav s p) ⟨p, rfl⟩

/-!  Claim theorems. -/

/-- C1, counterexample: contrary to the claim, `_set_motor` does not clamp
before storing: after `_set_motor("ARM", -5)` the stored motor value is `-5`,
not `0`. -/
theorem set_motor_no_clamp_cx :
    (set_motor initState "ARM" (-5)).motors.arm ≠ 0 := by decide

/-- C1, amended: `_set_motor(c, v)` on a known channel `c` stores `int(v)`
itself, with no clamping; clamping to [0,100] happens only in the views. -/
theorem set_motor_stores_raw (st : KioskState) (c : String) (v : Int)
    (h : Motors.member c = true) :
    (set_motor st c v).motors.get? c = some v := by
  rcases Motors.member_cases c h with hc | hc | hc <;> subst hc <;>
    simp [set_motor, Motors.set, Motors.get?, Motors.member]

/-- C1, witness for the amended theorem at channel "ARM" and value 999. -/
theorem set_motor_stores_raw_witness :
    Motors.member "ARM" = true ∧
      (set_motor initState "ARM" 999).motors.get? "ARM" = some 999 :=
  ⟨by decide, set_motor_stores_raw initState "ARM" 999 (by decide)⟩

/-- C2: after `_set_motor(c, v)` returns, every registered view bound to `c`
(the circular gauge and the vertical slider) displays `clamp(v, 0, 100)`, so
all views for `c` display the identical value.  For an unknown `c` no view is
bound and the statement holds vacuously. -/
theorem set_motor_syncs_views (st : KioskState) (c : String) (v : Int) :
    ∀ x ∈ viewsFor (set_motor st c v) c, x = clamp01 v := by
  by_cases hA : c = "ARM"
  · subst hA
    simp [viewsFor, set_motor, Motors.set, Motors.member, circularSetValue,
      sliderSetValue]
  · by_cases hW : c = "WRIST"
    · subst hW
      simp [viewsFor, set_motor, Motors.set, Motors.member, circularSetValue,
        sliderSetValue]
    · by_cases hT : c = "TENTACLE"
      · subst hT
        simp [viewsFor, set_motor, Motors.set, Motors.member, circularSetValue,
          sliderSetValue]
      · simp [viewsFor, hA, hW, hT]

/-- C2, witness: the gauge view of channel "ARM" after `_set_motor("ARM", 999)`
shows `clamp(999, 0, 100) = 100`. -/
theorem set_motor_syncs_views_witness :
    (100 : Int) ∈ viewsFor (set_motor initState "ARM" 999) "ARM" ∧
      (100 : Int) = clamp01 999 :=
  ⟨by decide, set_motor_syncs_views initState "ARM" 999 100 (by decide)⟩

/-- C5, counterexample: contrary to the claim, `_set_motor` on an unknown key
does not report an invalid-argument condition: the call on key "HEAD" returns
normally (and, from the initial state, returns the state unchanged). -/
theorem unknown_key_no_error_cx :
    set_motorE initState "HEAD" 10 = Except.ok initState := by rfl

/-- C5, amended: `_set_motor(k, v)` on a key not in the motor mapping is
silently ignored: the call returns normally (no error is reported) and the
motor mapping is unchanged. -/
theorem unknown_key_silently_ignored (st : KioskState) (k : String) (v : Int)
    (h : Motors.member k = false) :
    set_motorE st k v = Except.ok (set_motor st k v) ∧
      (set_motor st k v).motors = st.motors := by
  refine ⟨rfl, ?_⟩
  simp [set_motor, h]

/-- C5, witness for the amended theorem at key "HEAD". -/
theorem unknown_key_silently_ignored_witness :
    Motors.member "HEAD" = false ∧
      (set_motorE initState "HEAD" 10 =
          Except.ok (set_motor initState "HEAD" 10) ∧
        (set_motor initState "HEAD" 10).motors = initState.motors) :=
  ⟨by decide, unknown_key_silently_ignored initState "HEAD" 10 (by decide)⟩

/-- C9: a single motor write does not disturb any other channel: for every
key `c'` distinct from `c`, `_set_motor(c, v)` leaves the stored value of
`c'` unchanged (even though every view is re-rendered during the fan-out). -/
theorem set_motor_frame (st : KioskState) (c c' : String) (v : Int)
    (h : c' ≠ c) :
    (set_motor st c v).motors.get? c' = st.motors.get? c' := by
  unfold set_motor
  by_cases hm : Motors.member c
  · simp [hm, Motors.get?_set_ne st.motors c c' v h]
  · simp [hm]

/-- C9, witness: writing "ARM" leaves "WRIST" unchanged in the initial
state. -/
theorem set_motor_frame_witness :
    "WRIST" ≠ "ARM" ∧
      (set_motor initState "ARM" 99).motors.get? "WRIST" =
        initState.motors.get? "WRIST" :=
  ⟨by decide, set_motor_frame initState "ARM" "WRIST" 99 (by decide)⟩

/-- C10: `_apply_preset` is total over arbitrary name strings: "Stand" sets
ARM=30, WRIST=40, TENTACLE=10; "Wave" sets ARM=80, WRIST=60, TENTACLE=10;
every other name sets the Relax values ARM=40, WRIST=30, TENTACLE=20 — an
unknown preset name is never rejected. -/
theorem apply_preset_total (st : KioskState) (name : String) :
    (apply_preset st name).motors =
      if name = "Stand" then { arm := 30, wrist := 40, tentacle := 10 }
      else if name = "Wave" then { arm := 80, wrist := 60, tentacle := 10 }
      else { arm := 40, wrist := 30, tentacle := 20 } := by
  unfold apply_preset
  split_ifs <;>
    simp [List.foldl, set_motor, Motors.set, Motors.member, circularSetValue,
      sliderSetValue]

/-- C3, commit law: for a known channel `c`, opening the dial dialog
(snapshotting the stored value), adjusting the dial to 77 and closing with
accept stores 77 for `c`, makes every bound view show 77, and performs
exactly one `_set_motor` call. -/
theorem commit_law (st : KioskState) (c : String)
    (h : Motors.member c = true) :
    (close_dialog st c (dialog_adjust (open_dialog st c) 77) true).1.motors.get? c
        = some 77 ∧
      (∀ x ∈ viewsFor
          (close_dialog st c (dialog_adjust (open_dialog st c) 77) true).1 c,
        x = 77) ∧
      (close_dialog st c (dialog_adjust (open_dialog st c) 77) true).2 = 1 := by
  rcases Motors.member_cases c h with hc | hc | hc <;> subst hc <;>
    simp [close_dialog, dialog_adjust, open_dialog, clamp01, set_motor,
      Motors.set, Motors.get?, Motors.member, viewsFor, circularSetValue,
      sliderSetValue]

/-- C3, witness at channel "ARM" in the initial state. -/
theorem commit_law_witness :
    Motors.member "ARM" = true ∧
      ((close_dialog initState "ARM"
            (dialog_adjust (open_dialog initState "ARM") 77) true).1.motors.get?
          "ARM" = some 77 ∧
        (∀ x ∈ viewsFor
            (close_dialog initState "ARM"
              (dialog_adjust (open_dialog initState "ARM") 77) true).1 "ARM",
          x = 77) ∧
        (close_dialog initState "ARM"
            (dialog_adjust (open_dialog initState "ARM") 77) true).2 = 1) :=
  ⟨by decide, commit_law initState "ARM" (by decide)⟩

/-- C4, cancellation atomicity: for every channel `c` and every sequence of
dial adjustments, closing the dialog without accepting returns the kiosk state
exactly as it was before the dialog opened, with zero `_set_motor` calls. -/
theorem cancel_law (st : KioskState) (c : String) (vs : List Int) :
    close_dialog st c (vs.foldl dialog_adjust (open_dialog st c)) false
      = (st, 0) := by
  simp [close_dialog]

/-- C6, battery tick invariant: from any prior value in [0,100] and any draws,
the new value is in [0,100]; when the recharge branch is not taken the value
decreases by exactly 0 or 1; and the value can exceed the prior one only when
the post-decrement value is below 20 and the recharge roll succeeded. -/
theorem battery_tick_invariant (prev : Int) (i : Fin 3) (recharge : Bool)
    (jump : Int) (h0 : 0 ≤ prev) (h1 : prev ≤ 100) (hj0 : 8 ≤ jump)
    (hj1 : jump ≤ 25) :
    (0 ≤ simulate_battery prev i recharge jump ∧
        simulate_battery prev i recharge jump ≤ 100) ∧
      (¬(prev - decChoices.get ⟨i.val, i.isLt⟩ < 20 ∧ recharge = true) →
        simulate_battery prev i recharge jump = prev ∨
          simulate_battery prev i recharge jump = prev - 1) ∧
      (prev < simulate_battery prev i recharge jump →
        prev - decChoices.get ⟨i.val, i.isLt⟩ < 20 ∧ recharge = true) := by
  have hd : decChoices.get ⟨i.val, i.isLt⟩ = 0 ∨
      decChoices.get ⟨i.val, i.isLt⟩ = 1 := by
    fin_cases i <;> simp [decChoices]
  simp only [simulate_battery]
  refine ⟨?_, ?_, ?_⟩
  · split_ifs with hc <;> rcases hd with hd | hd <;> rw [hd] <;> omega
  · intro hnr
    split_ifs with hc
    · exact absurd hc hnr
    · rcases hd with hd | hd <;> rw [hd] at hnr ⊢ <;> omega
  · split_ifs with hc
    · intro _; exact hc
    · intro hlt
      exfalso
      rcases hd with hd | hd <;> rw [hd] at hlt <;> omega

/-- C6, witness: prior value 50, no decrement, no recharge roll, jump 8. -/
theorem battery_tick_invariant_witness :
    (0 : Int) ≤ 50 ∧ (50 : Int) ≤ 100 ∧ (8 : Int) ≤ 8 ∧ (8 : Int) ≤ 25 ∧
      ((0 ≤ simulate_battery 50 0 false 8 ∧
          simulate_battery 50 0 false 8 ≤ 100) ∧
        (¬((50 : Int) - decChoices.get ⟨(0 : Fin 3).val, (0 : Fin 3).isLt⟩ < 20 ∧
            false = true) →
          simulate_battery 50 0 false 8 = 50 ∨
            simulate_battery 50 0 false 8 = 50 - 1) ∧
        ((50 : Int) < simulate_battery 50 0 false 8 →
          (50 : Int) - decChoices.get ⟨(0 : Fin 3).val, (0 : Fin 3).isLt⟩ < 20 ∧
            false = true)) :=
  ⟨by decide, by decide, by decide, by decide,
    battery_tick_invariant 50 0 false 8 (by decide) (by decide) (by decide)
      (by decide)⟩

/-- C7, battery-voltage consistency: in every sample produced by a battery
tick, the published voltage equals exactly `11.0 + (percent / 100) * 1.6`
of the percent published in the same tick. -/
theorem battery_voltage_consistent (prev : Int) (i : Fin 3) (recharge : Bool)
    (jump : Int) :
    (simulate_battery_sample prev i recharge jump).voltage =
      11 + (((simulate_battery_sample prev i recharge jump).percent : Rat)
          / 100) * (16 / 10) := rfl

/-- C8, navigation: the initial active page is Home, `goto` is total and
unconditional (any page from any state), and after every sequence of
navigation requests exactly one page is active. -/
theorem navigation_exclusive (ps : List Page) :
    isActive initStackIndex Page.home ∧ ∃! p, isActive (navRun ps) p := by
  constructor
  · rfl
  · obtain ⟨q, hq⟩ :=
      navRun_foldl_reaches ps initStackIndex ⟨Page.home, rfl⟩
    refine ⟨q, hq, ?_⟩
    intro p hp
    exact pageIndex_injective ((hp : navRun ps = pageIndex p).symm.trans hq)
